import Mathlib

/-!
Shallow embedding of the job-agent pipeline: `src/search.py`, `src/ranker.py`,
`src/email_sender.py` and `src/config.py` of the repository.

Python strings are modelled as lists of Unicode code points (`List Nat`);
`pyStr` converts a Lean string literal into that representation.  Python
`str.lower` / `str.upper` are modelled on the ASCII range, which covers every
string constant the repository manipulates.  `hashlib.sha256` is implemented
in full over `Nat` arithmetic with explicit reduction mod `2 ^ 32`.
-/

/-- Code points of a Lean string literal; used to transcribe the Python
string literals of the source. -/
def pyStr (s : String) : List Nat :=
  s.data.map Char.toNat

/-- `str.lower` on a single code point (ASCII range). -/
def lowerCP (n : Nat) : Nat :=
  if 65 ≤ n ∧ n ≤ 90 then n + 32 else n

/-- `str.upper` on a single code point (ASCII range). -/
def upperCP (n : Nat) : Nat :=
  if 97 ≤ n ∧ n ≤ 122 then n - 32 else n

/-- `str.lower`. -/
def pyLower (s : List Nat) : List Nat :=
  s.map lowerCP

/-- `str.upper`. -/
def pyUpper (s : List Nat) : List Nat :=
  s.map upperCP

/-- Does the second list start with the first one? -/
def startsWith : List Nat → List Nat → Bool
  | [], _ => true
  | _ :: _, [] => false
  | a :: as, b :: bs => a == b && startsWith as bs

/-- Python substring test `needle in hay`. -/
def containsSub (needle : List Nat) : List Nat → Bool
  | [] => needle.isEmpty
  | b :: bs => startsWith needle (b :: bs) || containsSub needle bs

/-- Python lexicographic `<=` on strings (code-point order, as used by the
seen-store date comparison `v >= cutoff`). -/
def lexLE : List Nat → List Nat → Bool
  | [], _ => true
  | _ :: _, [] => false
  | a :: as, b :: bs => a < b || (a == b && lexLE as bs)

/-- UTF-8 encoding of one code point (`str.encode`). -/
def utf8CP (n : Nat) : List Nat :=
  if n < 128 then [n]
  else if n < 2048 then [192 + n / 64, 128 + n % 64]
  else if n < 65536 then [224 + n / 4096, 128 + n / 64 % 64, 128 + n % 64]
  else [240 + n / 262144, 128 + n / 4096 % 64, 128 + n / 64 % 64, 128 + n % 64]

/-- UTF-8 encoding of a string (`str.encode`). -/
def utf8 (s : List Nat) : List Nat :=
  s.flatMap utf8CP

/-- Chunking worker, structurally recursive on a fuel argument so that it
reduces in the kernel; the fallback at fuel 0 is unreachable when the fuel
starts at the list length. -/
def chunksAux (n : Nat) : Nat → List α → List (List α)
  | _, [] => []
  | 0, a :: as => [a :: as]
  | fuel + 1, a :: as => (a :: as).take n :: chunksAux n fuel (as.drop (n - 1))

/-- Split a list into consecutive chunks of size `n` (`n ≥ 1`), as the
`range(0, len(jobs), n)` slicing loops do. -/
def chunksList (n : Nat) (l : List α) : List (List α) :=
  chunksAux n l.length l

/-- 32-bit right rotation by `k`, on naturals below `2 ^ 32`, written with
division and remainder. -/
def rotr32 (k w : Nat) : Nat :=
  w / 2 ^ k + w % 2 ^ k * 2 ^ (32 - k)

/-- FIPS 180-4 Σ0. -/
def sigB0 (w : Nat) : Nat := rotr32 2 w ^^^ rotr32 13 w ^^^ rotr32 22 w

/-- FIPS 180-4 Σ1. -/
def sigB1 (w : Nat) : Nat := rotr32 6 w ^^^ rotr32 11 w ^^^ rotr32 25 w

/-- FIPS 180-4 σ0. -/
def sigS0 (w : Nat) : Nat := rotr32 7 w ^^^ rotr32 18 w ^^^ w / 2 ^ 3

/-- FIPS 180-4 σ1. -/
def sigS1 (w : Nat) : Nat := rotr32 17 w ^^^ rotr32 19 w ^^^ w / 2 ^ 10

/-- The 64 SHA-256 round constants, in decimal. -/
def shaK : List Nat :=
  [1116352408, 1899447441, 3049323471, 3921009573, 961987163, 1508970993,
   2453635748, 2870763221, 3624381080, 310598401, 607225278, 1426881987,
   1925078388, 2162078206, 2614888103, 3248222580, 3835390401, 4022224774,
   264347078, 604807628, 770255983, 1249150122, 1555081692, 1996064986,
   2554220882, 2821834349, 2952996808, 3210313671, 3336571891, 3584528711,
   113926993, 338241895, 666307205, 773529912, 1294757372, 1396182291,
   1695183700, 1986661051, 2177026350, 2456956037, 2730485921, 2820302411,
   3259730800, 3345764771, 3516065817, 3600352804, 4094571909, 275423344,
   430227734, 506948616, 659060556, 883997877, 958139571, 1322822218,
   1537002063, 1747873779, 1955562222, 2024104815, 2227730452, 2361852424,
   2428436474, 2756734187, 3204031479, 3329325298]

/-- SHA-256 padding: append `0x80`, zeros, and the bit length as 8 bytes
big-endian, to a multiple of 64 bytes. -/
def shaPad (msg : List Nat) : List Nat :=
  let l := msg.length
  msg ++ [128] ++ List.replicate ((64 + 56 - (l + 1) % 64) % 64) 0
    ++ [8 * l / 2 ^ 56 % 256, 8 * l / 2 ^ 48 % 256, 8 * l / 2 ^ 40 % 256, 8 * l / 2 ^ 32 % 256,
        8 * l / 2 ^ 24 % 256, 8 * l / 2 ^ 16 % 256, 8 * l / 2 ^ 8 % 256, 8 * l % 256]

/-- Big-endian 32-bit words of a byte list. -/
def wordsBE (bytes : List Nat) : List Nat :=
  (chunksList 4 bytes).map fun c =>
    c.getD 0 0 * 2 ^ 24 + c.getD 1 0 * 2 ^ 16 + c.getD 2 0 * 2 ^ 8 + c.getD 3 0

/-- Extend the 16-word message schedule by `k` further words. -/
def extendSched : List Nat → Nat → List Nat
  | ws, 0 => ws
  | ws, k + 1 =>
    let i := ws.length
    extendSched
      (ws ++ [(sigS1 (ws.getD (i - 2) 0) + ws.getD (i - 7) 0
        + sigS0 (ws.getD (i - 15) 0) + ws.getD (i - 16) 0) % 2 ^ 32]) k

/-- SHA-256 working state. -/
structure Sha8 where
  a : Nat
  b : Nat
  c : Nat
  d : Nat
  e : Nat
  f : Nat
  g : Nat
  h : Nat
  deriving DecidableEq

/-- One SHA-256 round; `kw` is the pair (scheduled word, round constant). -/
def shaRound (st : Sha8) (kw : Nat × Nat) : Sha8 :=
  let ch := (st.e &&& st.f) ^^^ ((4294967295 - st.e) &&& st.g)
  let maj := (st.a &&& st.b) ^^^ (st.a &&& st.c) ^^^ (st.b &&& st.c)
  let t1 := (st.h + sigB1 st.e + ch + kw.2 + kw.1) % 2 ^ 32
  let t2 := (sigB0 st.a + maj) % 2 ^ 32
  { a := (t1 + t2) % 2 ^ 32, b := st.a, c := st.b, d := st.c,
    e := (st.d + t1) % 2 ^ 32, f := st.e, g := st.f, h := st.g }

/-- The SHA-256 initial hash value, in decimal. -/
def shaInit : Sha8 :=
  { a := 1779033703, b := 3144134277, c := 1013904242, d := 2773480762,
    e := 1359893119, f := 2600822924, g := 528734635, h := 1541459225 }

/-- Compress one 64-byte block into the running hash. -/
def shaBlock (hs : Sha8) (block : List Nat) : Sha8 :=
  let ws := extendSched (wordsBE block) 48
  let st := (ws.zip shaK).foldl shaRound hs
  { a := (hs.a + st.a) % 2 ^ 32, b := (hs.b + st.b) % 2 ^ 32,
    c := (hs.c + st.c) % 2 ^ 32, d := (hs.d + st.d) % 2 ^ 32,
    e := (hs.e + st.e) % 2 ^ 32, f := (hs.f + st.f) % 2 ^ 32,
    g := (hs.g + st.g) % 2 ^ 32, h := (hs.h + st.h) % 2 ^ 32 }

/-- SHA-256 digest (32 bytes) of a byte list. -/
def sha256 (msg : List Nat) : List Nat :=
  let hs := (chunksList 64 (shaPad msg)).foldl shaBlock shaInit
  [hs.a, hs.b, hs.c, hs.d, hs.e, hs.f, hs.g, hs.h].flatMap fun w =>
    [w / 2 ^ 24 % 256, w / 2 ^ 16 % 256, w / 2 ^ 8 % 256, w % 256]

/-- Lower-case hex digit code point. -/
def hexCP (n : Nat) : Nat :=
  if n < 10 then 48 + n else 87 + n

/-- `hashlib`'s `.hexdigest()`: lower-case hex string of a byte list. -/
def hexDigest (bytes : List Nat) : List Nat :=
  bytes.flatMap fun b => [hexCP (b / 16), hexCP (b % 16)]

/-!  `src/config.py` — the constants the verified stages read. -/

/-- `config.EXCLUDE_COMPANIES` (src/config.py:74-76). -/
def EXCLUDE_COMPANIES : List (List Nat) :=
  [pyStr "Deloitte"]

/-- `config.PRIORITIZE_COMPANIES` (src/config.py:56-72). -/
def PRIORITIZE_COMPANIES : List (List Nat) :=
  [pyStr "BCG", pyStr "Boston Consulting Group", pyStr "McKinsey",
   pyStr "McKinsey & Company", pyStr "Bain", pyStr "Bain & Company",
   pyStr "Accenture", pyStr "Oliver Wyman", pyStr "Slalom", pyStr "IBM",
   pyStr "EY", pyStr "Ernst & Young", pyStr "PwC",
   pyStr "PricewaterhouseCoopers", pyStr "KPMG"]

/-!  `src/search.py` — fingerprint, exclusion, URL fallback, dedup loop,
seen-store pruning.  The seen-store (a JSON object on disk) is modelled as an
association list with Python `dict` assignment semantics; the `_load_seen` /
`_save_seen` file round-trips are identity on this model. -/

/-- One entry of a job's `apply_links` list — a Python `dict` read with
`.get`, hence optional fields. -/
structure ApplyLink where
  url : Option (List Nat) := none
  source : Option (List Nat) := none
  deriving DecidableEq

/-- A score block (`job["scores"]`).  In Python it is a `dict` whose keys may
each be absent, hence every field is an `Option`; numeric scores are modelled
as rationals. -/
structure Scores where
  overall : Option Rat := none
  title_fit : Option Rat := none
  industry_fit : Option Rat := none
  skill_match : Option Rat := none
  company_prestige : Option Rat := none
  one_liner : Option (List Nat) := none
  key_requirements : Option (List (List Nat)) := none
  why_apply : Option (List Nat) := none
  talking_points : Option (List (List Nat)) := none
  red_flags : Option (List (List Nat)) := none
  deep_insight : Option (List Nat) := none
  networking_angle : Option (List Nat) := none
  comp_intel : Option (List Nat) := none
  deriving DecidableEq

/-- A normalized job listing, the common schema produced by
`_normalize_serpapi` / `_normalize_jsearch` (every field present, possibly
empty).  `id` and `urlIsSearch` are written by the filter stage and `scores`
by the scorer; before that they hold their defaults. -/
structure Job where
  title : List Nat := []
  company : List Nat := []
  location : List Nat := []
  description : List Nat := []
  salary : List Nat := []
  posted : List Nat := []
  schedule : List Nat := []
  url : List Nat := []
  via : List Nat := []
  applyLinks : List ApplyLink := []
  qualifications : List (List Nat) := []
  responsibilities : List (List Nat) := []
  benefits : List (List Nat) := []
  id : List Nat := []
  urlIsSearch : Bool := false
  scores : Option Scores := none
  deriving DecidableEq

/-- `_job_id` (src/search.py:30-33) as a function of the three fields it
reads: first 16 hex characters of the SHA-256 of the lower-cased
`"title-company-location"` string. -/
def jobIdOf (title company location : List Nat) : List Nat :=
  (hexDigest (sha256 (utf8 (pyLower
    (title ++ pyStr "-" ++ company ++ pyStr "-" ++ location))))).take 16

/-- `_job_id` applied to a job. -/
def jobId (j : Job) : List Nat :=
  jobIdOf j.title j.company j.location

/-- `_is_excluded` (src/search.py:36-39). -/
def isExcluded (company : List Nat) : Bool :=
  EXCLUDE_COMPANIES.any fun exc => containsSub (pyLower exc) (pyLower company)

/-- Upper-case hex digit code point (percent-encoding uses upper case). -/
def hexUpperCP (n : Nat) : Nat :=
  if n < 10 then 48 + n else 55 + n

/-- `urllib.parse.quote_plus` on one UTF-8 byte: keep unreserved bytes,
turn a space into `+`, percent-encode the rest. -/
def quotePlusByte (b : Nat) : List Nat :=
  if (48 ≤ b ∧ b ≤ 57) ∨ (65 ≤ b ∧ b ≤ 90) ∨ (97 ≤ b ∧ b ≤ 122)
      ∨ b = 95 ∨ b = 46 ∨ b = 45 ∨ b = 126 then [b]
  else if b = 32 then [43]
  else [37, hexUpperCP (b / 16), hexUpperCP (b % 16)]

/-- `urllib.parse.quote_plus`. -/
def quotePlus (s : List Nat) : List Nat :=
  (utf8 s).flatMap quotePlusByte

/-- `_google_search_url` (src/search.py:42-45). -/
def googleSearchUrl (title company : List Nat) : List Nat :=
  pyStr "https://www.google.com/search?q="
    ++ quotePlus (title ++ pyStr " " ++ company ++ pyStr " job apply")

/-- The seen-store: fingerprint → first-seen ISO date, an association list
with `dict` semantics. -/
abbrev Store := List (List Nat × List Nat)

/-- `jid in seen` / `seen[jid]`: first matching key. -/
def dlookup (k : List Nat) : Store → Option (List Nat)
  | [] => none
  | kv :: rest => if kv.1 = k then some kv.2 else dlookup k rest

/-- `seen[jid] = today`: `dict` assignment (replace in place, else append). -/
def dinsert (k v : List Nat) : Store → Store
  | [] => [(k, v)]
  | kv :: rest => if kv.1 = k then (k, v) :: rest else kv :: dinsert k v rest

/-- The per-job mutation of the fetch loop body once a job is kept
(src/search.py:283-290): set `id`, and guarantee a clickable URL —
synthesize a Google search link and set `url_is_search` when the source
provided none. -/
def finalizeJob (j : Job) : Job :=
  let j1 := { j with id := jobId j }
  if j1.url = [] then
    { j1 with url := googleSearchUrl j1.title j1.company, urlIsSearch := true }
  else
    { j1 with urlIsSearch := false }

/-- The fetch-side deduplication loop (src/search.py:272-294): skip jobs
whose fingerprint is already seen, skip excluded companies, record new
fingerprints with today's date, and append the finalized job. -/
def dedupFilter (seen : Store) (today : List Nat) : List Job → List Job × Store
  | [] => ([], seen)
  | j :: rest =>
    if (dlookup (jobId j) seen).isSome then
      dedupFilter seen today rest
    else if isExcluded j.company then
      dedupFilter seen today rest
    else
      let out := dedupFilter (dinsert (jobId j) today seen) today rest
      (finalizeJob j :: out.1, out.2)

/-- The pruning step (src/search.py:296-298): keep the entries whose date
`v` satisfies `v >= cutoff`, where `cutoff` is the ISO date 30 days before
the run date. -/
def pruneSeen (seen : Store) (cutoff : List Nat) : Store :=
  seen.filter fun kv => lexLE cutoff kv.2

/-- The whole filter stage of `fetch_jobs` (src/search.py:272-299): the
dedup loop followed by pruning of the persisted store. -/
def filterStage (seen : Store) (today cutoff : List Nat) (raw : List Job) :
    List Job × Store :=
  let r := dedupFilter seen today raw
  (r.1, pruneSeen r.2 cutoff)

/-!  `src/ranker.py` — scoring and ranking.  The external text-generation
service is modelled by oracles: `BatchReply` is the outcome of one batch
request after response handling up to `json.loads`, `SingleReply` the
outcome of one single-job fallback request.  The prompt strings built from
each job are sent to the service only, so their text lives inside the
oracle and is not reconstructed here. -/

/-- `_empty_scores` (src/ranker.py:199-210). -/
def emptyScores (reason : List Nat) : Scores :=
  { overall := some 5, one_liner := some reason, key_requirements := some [],
    why_apply := some [], talking_points := some [], red_flags := some [],
    deep_insight := some [], networking_angle := some [], comp_intel := some [] }

/-- The neutral block attached when no scoring credential is configured
(src/ranker.py:66-74); note it carries no deep-insight fields. -/
def unrankedScores : Scores :=
  { overall := some 5, one_liner := some (pyStr "Unranked (no API key)"),
    key_requirements := some [], why_apply := some [], talking_points := some [],
    red_flags := some [] }

/-- Outcome of one batch request, as seen by `_score_batch` after the reply
text is unwrapped: `jsonError` is a `json.JSONDecodeError` from `json.loads`,
`exn` any other exception raised inside the `try` block (network failure,
missing `id` key in a response block, ...), `parsed` a parsed response —
the `result.get("scores", [])` list, each block keyed by its `id` field. -/
inductive BatchReply where
  | jsonError : BatchReply
  | exn : BatchReply
  | parsed : List (List Nat × Scores) → BatchReply

/-- Outcome of one single-job fallback request (`_score_single`): there every
exception, parse failure included, lands in one handler, so only
success/failure is distinguished; on success the parsed `scores` list is
kept (the `id` key inside a block is attached verbatim and never read
again, so it is not modelled separately). -/
inductive SingleReply where
  | failed : SingleReply
  | parsed : List Scores → SingleReply

/-- `scores_by_id = {s["id"]: s for s in ...}` followed by a key lookup:
`dict` comprehension semantics, the last block with a given id wins. -/
def dictGet (entries : List (List Nat × Scores)) (k : List Nat) : Option Scores :=
  (entries.reverse.find? fun e => e.1 == k).map fun e => e.2

/-- `_score_single` (src/ranker.py:159-196): attach the first returned
score block, or the documented marker blocks on an empty list / any
exception. -/
def scoreSingle (singleO : Job → SingleReply) (j : Job) : Job :=
  match singleO j with
  | SingleReply.parsed (sc :: _) => { j with scores := some sc }
  | SingleReply.parsed [] => { j with scores := some (emptyScores (pyStr "No scores returned")) }
  | SingleReply.failed => { j with scores := some (emptyScores (pyStr "Scoring failed")) }

/-- `_score_batch` (src/ranker.py:92-156): on a parsed response match score
blocks back by id ("Not scored" when absent); on a JSON parse failure fall
back to scoring each job individually when the batch has more than one job,
else mark a parse error; on any other exception mark an API error.  The
mutated batch itself is returned — no job is added or removed. -/
def scoreBatch (batchO : List Job → BatchReply) (singleO : Job → SingleReply)
    (batch : List Job) : List Job :=
  match batchO batch with
  | BatchReply.parsed entries =>
      batch.map fun j =>
        match dictGet entries j.id with
        | some sc => { j with scores := some sc }
        | none => { j with scores := some (emptyScores (pyStr "Not scored")) }
  | BatchReply.jsonError =>
      if batch.length > 1 then
        batch.map (scoreSingle singleO)
      else
        batch.map fun j =>
          { j with scores := some (emptyScores (pyStr "Parse error during scoring")) }
  | BatchReply.exn =>
      batch.map fun j =>
        { j with scores := some (emptyScores (pyStr "API error during scoring")) }

/-- The sort key `j.get("scores", {}).get("overall", 0)`
(src/ranker.py:88). -/
def okey (j : Job) : Rat :=
  match j.scores with
  | none => 0
  | some s => s.overall.getD 0

/-- `scored_jobs.sort(key=..., reverse=True)`: Python's stable sort,
descending on `okey`, modelled by the stable `List.mergeSort`. -/
def sortByOverall (l : List Job) : List Job :=
  l.mergeSort fun a b => okey b ≤ okey a

/-- The no-credential default annotation (src/ranker.py:66-74). -/
def addUnranked (j : Job) : Job :=
  { j with scores := some unrankedScores }

/-- The batching loop of `rank_jobs` (src/ranker.py:79-85): process jobs in
batches of 5 and concatenate the returned batches. -/
def scoreAll (batchO : List Job → BatchReply) (singleO : Job → SingleReply)
    (jobs : List Job) : List Job :=
  (chunksList 5 jobs).flatMap (scoreBatch batchO singleO)

/-- `rank_jobs` (src/ranker.py:59-89); `hasKey` is the truthiness of
`config.ANTHROPIC_API_KEY`. -/
def rank_jobs (hasKey : Bool) (batchO : List Job → BatchReply)
    (singleO : Job → SingleReply) (jobs : List Job) : List Job :=
  if jobs.isEmpty then []
  else if !hasKey then jobs.map addUnranked
  else sortByOverall (scoreAll batchO singleO jobs)

/-- The annotated-but-unsorted job list: `rank_jobs` just before its final
sort (identical to `rank_jobs` in the branches that do not sort).  Used to
state the stability law. -/
def rankedUnsorted (hasKey : Bool) (batchO : List Job → BatchReply)
    (singleO : Job → SingleReply) (jobs : List Job) : List Job :=
  if jobs.isEmpty then []
  else if !hasKey then jobs.map addUnranked
  else scoreAll batchO singleO jobs

/-- Erase the field the scorer writes; `rank_jobs` output is a permutation
of the input up to this field. -/
def clearScores (j : Job) : Job :=
  { j with scores := none }

/-- The documented default / error-marker blocks of the scorer. -/
def documentedMarker (s : Scores) : Prop :=
  s = unrankedScores
    ∨ s = emptyScores (pyStr "Not scored")
    ∨ s = emptyScores (pyStr "Parse error during scoring")
    ∨ s = emptyScores (pyStr "API error during scoring")
    ∨ s = emptyScores (pyStr "No scores returned")
    ∨ s = emptyScores (pyStr "Scoring failed")

/-- A score block that came out of the scoring service (through either a
parsed batch response or a parsed single-job response). -/
def fromService (batchO : List Job → BatchReply) (singleO : Job → SingleReply)
    (s : Scores) : Prop :=
  (∃ b entries e, batchO b = BatchReply.parsed entries ∧ e ∈ entries ∧ e.2 = s)
    ∨ ∃ j sc rest, singleO j = SingleReply.parsed (sc :: rest) ∧ sc = s

/-!  `src/email_sender.py` — HTML rendering and delivery.  A job reaching
the presenter is a Python `dict`, any key possibly absent, modelled by
`DJob`.  `_build_job_card` and `_build_summary_row` read `job["title"]` and
`job["company"]` by direct key access, which raises `KeyError` on a missing
key; the builders therefore return `Except`, the error value naming the
missing key.  Python float formatting (`:.0f`, `:.1f`, `repr`) is modelled
by rational rounding — the claims under check do not inspect those digit
strings. -/

/-- A job as the presenter sees it. -/
structure DJob where
  title : Option (List Nat) := none
  company : Option (List Nat) := none
  location : Option (List Nat) := none
  description : Option (List Nat) := none
  salary : Option (List Nat) := none
  posted : Option (List Nat) := none
  url : Option (List Nat) := none
  via : Option (List Nat) := none
  urlIsSearch : Option Bool := none
  applyLinks : Option (List ApplyLink) := none
  id : Option (List Nat) := none
  scores : Option Scores := none
  deriving DecidableEq

/-- `job.get(key, default)` is `Option.getD`; `job[key]` is this: the value,
or a `KeyError` naming the key. -/
def getKey (v : Option α) (key : List Nat) : Except (List Nat) α :=
  match v with
  | some a => Except.ok a
  | none => Except.error (pyStr "KeyError: " ++ key)

/-- A Python generator of fallible renderings consumed by `"".join`: the
first element that raises propagates. -/
def mapExcept (f : α → Except ε β) : List α → Except ε (List β)
  | [] => Except.ok []
  | a :: as =>
    match f a with
    | Except.error e => Except.error e
    | Except.ok b =>
      match mapExcept f as with
      | Except.error e => Except.error e
      | Except.ok bs => Except.ok (b :: bs)

/-- Decimal-digit worker, structurally recursive on fuel; the fuel-0
fallback is only reachable at `n = 0`, where it is the correct digit. -/
def natDigitsAux : Nat → Nat → List Nat
  | 0, n => [48 + n % 10]
  | fuel + 1, n => if n < 10 then [48 + n] else natDigitsAux fuel (n / 10) ++ [48 + n % 10]

/-- Decimal digits of a natural number (Python `str`/`f"{n}"`). -/
def natDigits (n : Nat) : List Nat :=
  natDigitsAux n n

/-- Decimal rendering of an integer. -/
def intStr (i : Int) : List Nat :=
  if i < 0 then 45 :: natDigits i.natAbs else natDigits i.natAbs

/-- Round half to even, the rounding of Python float formatting. -/
def roundHE (q : Rat) : Int :=
  let f := q.floor
  if q - f < 1 / 2 then f
  else if 1 / 2 < q - f then f + 1
  else if f % 2 = 0 then f else f + 1

/-- Python `f"{x:.0f}"` on the rational model. -/
def fmtF0 (q : Rat) : List Nat :=
  intStr (roundHE q)

/-- Python `f"{x:.1f}"` on the rational model. -/
def fmtF1 (q : Rat) : List Nat :=
  let m := roundHE (q * 10)
  (if m < 0 then [45] else []) ++ natDigits (m.natAbs / 10) ++ [46] ++ natDigits (m.natAbs % 10)

/-- `location.split(",")[0]`: the segment before the first comma. -/
def takeUntil (c : Nat) : List Nat → List Nat
  | [] => []
  | a :: as => if a = c then [] else a :: takeUntil c as

/-- Replacement worker, structurally recursive on fuel; the fuel-0 fallback
is unreachable when the fuel starts at the list length. -/
def replaceSubAux (pat rep : List Nat) : Nat → List Nat → List Nat
  | _, [] => []
  | 0, a :: as => a :: as
  | fuel + 1, a :: as =>
    if startsWith pat (a :: as) then rep ++ replaceSubAux pat rep fuel (as.drop (pat.length - 1))
    else a :: replaceSubAux pat rep fuel as

/-- Python `str.replace` (all occurrences, left to right; every pattern the
source passes is non-empty). -/
def replaceSub (pat rep s : List Nat) : List Nat :=
  replaceSubAux pat rep s.length s

/-- ASCII whitespace, for `str.strip`. -/
def isWS (n : Nat) : Bool :=
  n = 32 || n = 9 || n = 10 || n = 13 || n = 11 || n = 12

/-- Python `str.strip()`. -/
def stripWS (s : List Nat) : List Nat :=
  ((s.dropWhile isWS).reverse.dropWhile isWS).reverse

/-- `_score_color` (src/email_sender.py:9-14). -/
def scoreColor (score : Rat) : List Nat :=
  if 7 ≤ score then pyStr "#22c55e"
  else if 5 ≤ score then pyStr "#f59e0b"
  else pyStr "#ef4444"

/-- `_score_bar` (src/email_sender.py:17-25), `max_score` at its default
10.0. -/
def scoreBar (score : Rat) : List Nat :=
  let pct := min 100 (score / 10 * 100)
  let color := scoreColor score
  pyStr "<div style=\"background:#e5e7eb;border-radius:4px;height:8px;width:80px;display:inline-block;vertical-align:middle;\">"
    ++ pyStr "<div style=\"background:" ++ color ++ pyStr ";border-radius:4px;height:8px;width:"
    ++ fmtF1 pct ++ pyStr "%;\"></div>"
    ++ pyStr "</div>"
    ++ pyStr " <span style=\"font-size:12px;color:#6b7280;\">" ++ fmtF1 score ++ pyStr "</span>"

/-- `_priority_badge` (src/email_sender.py:28-33). -/
def priorityBadge (company : List Nat) : List Nat :=
  if PRIORITIZE_COMPANIES.any (fun p => containsSub (pyLower p) (pyLower company)) then
    pyStr " <span style=\"background:#dbeafe;color:#1d4ed8;font-size:10px;padding:2px 6px;border-radius:3px;font-weight:600;letter-spacing:0.5px;\">PRIORITY</span>"
  else []

/-- `_remote_badge` (src/email_sender.py:36-39). -/
def remoteBadge (location : List Nat) : List Nat :=
  if containsSub (pyStr "remote") (pyLower location) then
    pyStr " <span style=\"background:#f0fdf4;color:#166534;font-size:10px;padding:2px 6px;border-radius:3px;font-weight:600;\">REMOTE</span>"
  else []

/-- The loop body of `_build_apply_section` over `enumerate(apply_links[:4])`
(src/email_sender.py:53-59). -/
def applyLinkHtml (e : Nat × ApplyLink) : List Nat :=
  let source := e.2.source.getD (pyStr "Apply")
  let linkUrl := e.2.url.getD []
  if e.1 = 0 then
    pyStr "<a href=\"" ++ linkUrl
      ++ pyStr "\" style=\"display:inline-block;background:#2563eb;color:#ffffff;padding:8px 16px;border-radius:6px;text-decoration:none;font-size:13px;font-weight:600;\">Apply on "
      ++ source ++ pyStr " &rarr;</a> "
  else
    pyStr "<a href=\"" ++ linkUrl
      ++ pyStr "\" style=\"color:#2563eb;text-decoration:none;font-size:12px;margin-left:8px;\">"
      ++ source ++ pyStr "</a> "

/-- `_build_apply_section` (src/email_sender.py:42-69). -/
def buildApplySection (job : DJob) : List Nat :=
  let applyLinks := job.applyLinks.getD []
  let url := job.url.getD []
  let isSearch := job.urlIsSearch.getD false
  if applyLinks.isEmpty && url.isEmpty then []
  else
    let linksHtml :=
      if !applyLinks.isEmpty then
        ((applyLinks.take 4).enum.map applyLinkHtml).flatten
      else if !url.isEmpty then
        let label := if isSearch then pyStr "Search for posting" else pyStr "View posting"
        pyStr "<a href=\"" ++ url
          ++ pyStr "\" style=\"display:inline-block;background:#2563eb;color:#ffffff;padding:8px 16px;border-radius:6px;text-decoration:none;font-size:13px;font-weight:600;\">"
          ++ label ++ pyStr " &rarr;</a>"
      else []
    pyStr "\n    <div style=\"margin-top:12px;padding-top:12px;border-top:1px solid #e5e7eb;\">\n      <div style=\"font-size:11px;font-weight:700;color:#374151;text-transform:uppercase;letter-spacing:1px;margin-bottom:6px;\">How to Apply</div>\n      "
      ++ linksHtml ++ pyStr "\n    </div>\n    "

/-- `_build_list_html` (src/email_sender.py:72-76). -/
def buildListHtml (items : List (List Nat)) (color : List Nat) : List Nat :=
  if items.isEmpty then []
  else
    let listItems :=
      (items.map fun item => pyStr "<li style=\"margin-bottom:2px;\">" ++ item ++ pyStr "</li>").flatten
    pyStr "<ul style=\"margin:4px 0;padding-left:18px;font-size:12px;color:" ++ color
      ++ pyStr ";list-style:disc;\">" ++ listItems ++ pyStr "</ul>"

/-- `_build_job_card` (src/email_sender.py:79-257).  All fields are read
with `.get` except `job["title"]` (line 102) and `job["company"]`
(line 224), whose direct key access raises `KeyError` when absent. -/
def buildJobCard (job : DJob) (rank : Nat) (expanded : Bool) :
    Except (List Nat) (List Nat) := do
  let scores := job.scores.getD {}
  let overall := scores.overall.getD 0
  let oneLiner := scores.one_liner.getD []
  let titleFit := scores.title_fit.getD 0
  let industryFit := scores.industry_fit.getD 0
  let skillMatch := scores.skill_match.getD 0
  let companyPrestige := scores.company_prestige.getD 0
  let borderColor := scoreColor overall
  let url := job.url.getD []
  let salary := job.salary.getD []
  let salaryHtml :=
    if !salary.isEmpty then
      pyStr "<span style=\"color:#059669;font-weight:600;\">" ++ salary ++ pyStr "</span>"
    else pyStr "<span style=\"color:#9ca3af;\">Salary not listed</span>"
  let via := job.via.getD []
  let viaHtml :=
    if !via.isEmpty then
      pyStr " <span style=\"color:#9ca3af;font-size:11px;\">via " ++ via ++ pyStr "</span>"
    else []
  let posted := job.posted.getD []
  let postedHtml :=
    if !posted.isEmpty then
      pyStr " &middot; <span style=\"font-size:12px;color:#9ca3af;\">" ++ posted ++ pyStr "</span>"
    else []
  let title ← getKey job.title (pyStr "title")
  let titleHtml :=
    if !url.isEmpty then
      pyStr "<a href=\"" ++ url
        ++ pyStr "\" style=\"color:#111827;text-decoration:none;font-size:16px;font-weight:700;\">"
        ++ title ++ pyStr "</a>"
    else
      pyStr "<span style=\"font-size:16px;font-weight:700;color:#111827;\">" ++ title ++ pyStr "</span>"
  let keyReqs := scores.key_requirements.getD []
  let whyApply := scores.why_apply.getD []
  let talkingPoints := scores.talking_points.getD []
  let redFlags := scores.red_flags.getD []
  let deepInsight := scores.deep_insight.getD []
  let networkingAngle := scores.networking_angle.getD []
  let compIntel := scores.comp_intel.getD []
  let whySection :=
    if !whyApply.isEmpty then
      pyStr "\n        <div style=\"margin-top:8px;\">\n          <div style=\"font-size:11px;font-weight:700;color:#059669;text-transform:uppercase;letter-spacing:0.5px;\">Why Apply</div>\n          <div style=\"font-size:13px;color:#374151;margin-top:2px;\">"
        ++ whyApply ++ pyStr "</div>\n        </div>\n        "
    else []
  let reqsSection :=
    if !keyReqs.isEmpty then
      pyStr "\n        <div style=\"margin-top:8px;\">\n          <div style=\"font-size:11px;font-weight:700;color:#6b7280;text-transform:uppercase;letter-spacing:0.5px;\">Key Requirements</div>\n          "
        ++ buildListHtml keyReqs (pyStr "#374151") ++ pyStr "\n        </div>\n        "
    else []
  let tpSection :=
    if !talkingPoints.isEmpty then
      pyStr "\n        <div style=\"margin-top:8px;\">\n          <div style=\"font-size:11px;font-weight:700;color:#2563eb;text-transform:uppercase;letter-spacing:0.5px;\">Your Talking Points</div>\n          "
        ++ buildListHtml talkingPoints (pyStr "#1e40af") ++ pyStr "\n        </div>\n        "
    else []
  let rfSection :=
    if !redFlags.isEmpty then
      pyStr "\n        <div style=\"margin-top:8px;\">\n          <div style=\"font-size:11px;font-weight:700;color:#dc2626;text-transform:uppercase;letter-spacing:0.5px;\">Watch Out</div>\n          "
        ++ buildListHtml redFlags (pyStr "#dc2626") ++ pyStr "\n        </div>\n        "
    else []
  let insightSection :=
    if !deepInsight.isEmpty then
      pyStr "\n        <div style=\"margin-top:8px;background:#f8fafc;border-radius:6px;padding:10px;\">\n          <div style=\"font-size:11px;font-weight:700;color:#7c3aed;text-transform:uppercase;letter-spacing:0.5px;\">Strategic Insight</div>\n          <div style=\"font-size:12px;color:#374151;margin-top:2px;\">"
        ++ deepInsight ++ pyStr "</div>\n        </div>\n        "
    else []
  let networkSection :=
    if !networkingAngle.isEmpty then
      pyStr "\n        <div style=\"margin-top:6px;background:#f0fdf4;border-radius:6px;padding:10px;\">\n          <div style=\"font-size:11px;font-weight:700;color:#166534;text-transform:uppercase;letter-spacing:0.5px;\">Networking Angle</div>\n          <div style=\"font-size:12px;color:#374151;margin-top:2px;\">"
        ++ networkingAngle ++ pyStr "</div>\n        </div>\n        "
    else []
  let ciSection :=
    if !compIntel.isEmpty then
      pyStr "\n        <div style=\"margin-top:6px;background:#eff6ff;border-radius:6px;padding:10px;\">\n          <div style=\"font-size:11px;font-weight:700;color:#1d4ed8;text-transform:uppercase;letter-spacing:0.5px;\">Company Intel</div>\n          <div style=\"font-size:12px;color:#374151;margin-top:2px;\">"
        ++ compIntel ++ pyStr "</div>\n        </div>\n        "
    else []
  let hasDetails := !whyApply.isEmpty || !keyReqs.isEmpty || !talkingPoints.isEmpty
    || !deepInsight.isEmpty || !networkingAngle.isEmpty || !compIntel.isEmpty
  let detailsHtml :=
    if hasDetails then
      let openAttr := if expanded ∧ 8 ≤ overall then pyStr "open" else []
      pyStr "\n        <details " ++ openAttr
        ++ pyStr " style=\"margin-top:10px;\">\n          <summary style=\"cursor:pointer;font-size:12px;font-weight:600;color:#2563eb;list-style:none;user-select:none;\">\n            &#9660; Full Analysis &amp; Apply Guidance\n          </summary>\n          <div style=\"margin-top:8px;\">\n            "
        ++ whySection ++ pyStr "\n            " ++ reqsSection ++ pyStr "\n            "
        ++ tpSection ++ pyStr "\n            " ++ rfSection ++ pyStr "\n            "
        ++ insightSection ++ pyStr "\n            " ++ networkSection ++ pyStr "\n            "
        ++ ciSection ++ pyStr "\n          </div>\n        </details>\n        "
    else []
  let applySection := buildApplySection job
  let descFull := job.description.getD []
  let desc := descFull.take 400
  let descHtml := desc ++ (if descFull.length > 400 then pyStr "..." else [])
  let anchorId := pyStr "job-" ++ job.id.getD (natDigits rank)
  let company ← getKey job.company (pyStr "company")
  pure
    (pyStr "\n    <div id=\"" ++ anchorId ++ pyStr "\" style=\"border:1px solid " ++ borderColor
      ++ pyStr ";border-left:4px solid " ++ borderColor
      ++ pyStr ";border-radius:8px;padding:16px;margin-bottom:14px;background:#ffffff;\">\n      <!-- Header -->\n      <div style=\"display:flex;justify-content:space-between;align-items:flex-start;\">\n        <div style=\"flex:1;\">\n          <div style=\"font-size:11px;color:#9ca3af;font-weight:600;\">#"
      ++ natDigits rank
      ++ pyStr "</div>\n          <div style=\"margin:2px 0;\">\n            "
      ++ titleHtml ++ priorityBadge (job.company.getD []) ++ remoteBadge (job.location.getD [])
      ++ pyStr "\n          </div>\n          <div style=\"font-size:14px;color:#4b5563;\">\n            "
      ++ company ++ viaHtml
      ++ pyStr "\n          </div>\n          <div style=\"font-size:13px;color:#6b7280;margin-top:2px;\">\n            "
      ++ job.location.getD (pyStr "Location not specified") ++ pyStr " &middot; " ++ salaryHtml ++ postedHtml
      ++ pyStr "\n          </div>\n        </div>\n        <div style=\"text-align:right;min-width:55px;\">\n          <div style=\"font-size:28px;font-weight:800;color:"
      ++ borderColor ++ pyStr ";\">" ++ fmtF0 overall
      ++ pyStr "</div>\n          <div style=\"font-size:10px;color:#9ca3af;\">/ 10</div>\n        </div>\n      </div>\n\n      <!-- AI Assessment -->\n      <div style=\"margin-top:10px;font-size:13px;color:#374151;font-style:italic;border-left:3px solid "
      ++ borderColor ++ pyStr ";padding-left:10px;\">\n        " ++ oneLiner
      ++ pyStr "\n      </div>\n\n      <!-- Score Bars -->\n      <div style=\"margin-top:10px;font-size:12px;color:#6b7280;\">\n        Title: "
      ++ scoreBar titleFit ++ pyStr " &nbsp; Industry: " ++ scoreBar industryFit
      ++ pyStr " &nbsp; Skills: " ++ scoreBar skillMatch ++ pyStr " &nbsp; Company: " ++ scoreBar companyPrestige
      ++ pyStr "\n      </div>\n\n      <!-- Description -->\n      <div style=\"margin-top:10px;font-size:12px;color:#6b7280;line-height:1.5;\">\n        "
      ++ descHtml
      ++ pyStr "\n      </div>\n\n      <!-- Collapsible Deep Analysis -->\n      " ++ detailsHtml
      ++ pyStr "\n\n      <!-- Apply -->\n      " ++ applySection
      ++ pyStr "\n    </div>\n    ")

/-- `_build_summary_row` (src/email_sender.py:260-279); `job["title"]` and
`job["company"]` are direct key accesses here too. -/
def buildSummaryRow (job : DJob) (rank : Nat) : Except (List Nat) (List Nat) := do
  let scores := job.scores.getD {}
  let overall := scores.overall.getD 0
  let color := scoreColor overall
  let url := job.url.getD []
  let title ← getKey job.title (pyStr "title")
  let titleLink :=
    if !url.isEmpty then
      pyStr "<a href=\"" ++ url ++ pyStr "\" style=\"color:#2563eb;text-decoration:none;\">"
        ++ title ++ pyStr "</a>"
    else title
  let salary := job.salary.getD []
  let salaryHtml :=
    if !salary.isEmpty then pyStr "<span style=\"color:#059669;\">" ++ salary ++ pyStr "</span>"
    else pyStr "-"
  let anchorId := pyStr "job-" ++ job.id.getD (natDigits rank)
  let company ← getKey job.company (pyStr "company")
  pure
    (pyStr "\n    <tr id=\"" ++ anchorId
      ++ pyStr "\" style=\"border-bottom:1px solid #f3f4f6;\">\n      <td style=\"padding:8px 6px;font-size:12px;color:#9ca3af;\">"
      ++ natDigits rank
      ++ pyStr "</td>\n      <td style=\"padding:8px 6px;font-size:12px;font-weight:600;color:"
      ++ color ++ pyStr ";\">" ++ fmtF0 overall
      ++ pyStr "</td>\n      <td style=\"padding:8px 6px;font-size:13px;\">" ++ titleLink
      ++ pyStr "</td>\n      <td style=\"padding:8px 6px;font-size:12px;color:#6b7280;\">"
      ++ company ++ priorityBadge (job.company.getD [])
      ++ pyStr "</td>\n      <td style=\"padding:8px 6px;font-size:12px;\">" ++ salaryHtml
      ++ pyStr "</td>\n    </tr>\n    ")

/-- The `j.get("scores", {}).get("overall", 0)` read on presenter jobs. -/
def dokey (j : DJob) : Rat :=
  (j.scores.getD {}).overall.getD 0

/-- The loop body of `_build_toc_table` (src/email_sender.py:288-331);
`e` is one element of `enumerate(jobs)`.  (The `salary_html` binding at
line 306 of the source is dead and not reproduced.) -/
def tocRow (e : Nat × DJob) : List Nat :=
  let job := e.2
  let overall := (job.scores.getD {}).overall.getD 0
  let color := scoreColor overall
  let anchorId := pyStr "job-" ++ job.id.getD (natDigits (e.1 + 1))
  let title0 := job.title.getD (pyStr "Untitled")
  let company := job.company.getD []
  let location := job.location.getD []
  let salary := job.salary.getD []
  let title := if title0.length > 45 then title0.take 42 ++ pyStr "..." else title0
  let locShort0 := if !location.isEmpty then takeUntil 44 location else []
  let locShort :=
    if containsSub (pyStr "remote") (pyLower location) then
      if locShort0.isEmpty || containsSub (pyStr "remote") (pyLower locShort0) then pyStr "Remote"
      else locShort0 ++ pyStr " / Remote"
    else locShort0
  let badge :=
    if PRIORITIZE_COMPANIES.any (fun p => containsSub (pyLower p) (pyLower company)) then
      pyStr " <span style=\"color:#2563eb;font-size:9px;\">&#9733;</span>"
    else []
  let salShort :=
    if !salary.isEmpty then
      let s := stripWS (replaceSub (pyStr "a year") []
        (replaceSub (pyStr "per year") []
          (replaceSub (pyStr " per year") []
            (replaceSub (pyStr " a year") [] salary))))
      if s.length > 25 then s.take 22 ++ pyStr "..." else s
    else []
  pyStr "\n        <tr style=\"border-bottom:1px solid #f3f4f6;\">\n          <td style=\"padding:5px 4px;font-size:11px;color:#9ca3af;text-align:center;\">"
    ++ natDigits (e.1 + 1)
    ++ pyStr "</td>\n          <td style=\"padding:5px 4px;text-align:center;\"><span style=\"font-size:12px;font-weight:700;color:"
    ++ color ++ pyStr ";\">" ++ fmtF0 overall
    ++ pyStr "</span></td>\n          <td style=\"padding:5px 4px;font-size:12px;\"><a href=\"#"
    ++ anchorId ++ pyStr "\" style=\"color:#111827;text-decoration:none;\">" ++ title
    ++ pyStr "</a></td>\n          <td style=\"padding:5px 4px;font-size:11px;color:#6b7280;\">"
    ++ company ++ badge
    ++ pyStr "</td>\n          <td style=\"padding:5px 4px;font-size:11px;color:#6b7280;\">" ++ locShort
    ++ pyStr "</td>\n          <td style=\"padding:5px 4px;font-size:11px;color:#059669;\">" ++ salShort
    ++ pyStr "</td>\n        </tr>\n        "

/-- `_build_toc_table` (src/email_sender.py:282-360). -/
def buildTocTable (jobs : List DJob) : List Nat :=
  if jobs.isEmpty then []
  else
    let rows := (jobs.enum.map tocRow).flatten
    let pastUrl := pyStr "https://www.google.com/search?q=Partner+OR+VP+OR+CIO+OR+%22Managing+Director%22+manufacturing+OR+consulting+OR+technology+Chicago&ibp=htl;jobs"
    pyStr "\n    <div style=\"background:#ffffff;border-radius:8px;padding:14px;margin-bottom:16px;border:1px solid #e5e7eb;\">\n      <div style=\"font-size:11px;font-weight:700;color:#374151;text-transform:uppercase;letter-spacing:1px;margin-bottom:8px;\">\n        All Listings at a Glance\n      </div>\n      <table style=\"width:100%;border-collapse:collapse;\">\n        <thead>\n          <tr style=\"border-bottom:2px solid #e5e7eb;\">\n            <th style=\"padding:4px;font-size:10px;color:#9ca3af;text-align:center;width:28px;\">#</th>\n            <th style=\"padding:4px;font-size:10px;color:#9ca3af;text-align:center;width:36px;\">Score</th>\n            <th style=\"padding:4px;font-size:10px;color:#9ca3af;text-align:left;\">Role</th>\n            <th style=\"padding:4px;font-size:10px;color:#9ca3af;text-align:left;\">Company</th>\n            <th style=\"padding:4px;font-size:10px;color:#9ca3af;text-align:left;\">Location</th>\n            <th style=\"padding:4px;font-size:10px;color:#9ca3af;text-align:left;\">Salary</th>\n          </tr>\n        </thead>\n        <tbody>\n          "
      ++ rows
      ++ pyStr "\n        </tbody>\n      </table>\n      <div style=\"margin-top:10px;padding-top:8px;border-top:1px solid #f3f4f6;text-align:center;\">\n        <a href=\""
      ++ pastUrl
      ++ pyStr "\" style=\"font-size:12px;color:#2563eb;text-decoration:none;\">Browse all matching listings on Google Jobs &rarr;</a>\n      </div>\n    </div>\n    "

/-- The single return template of `build_email_html`
(src/email_sender.py:432-489), shared by the empty and non-empty branches. -/
def emailShell (today : List Nat) (jobCount highScore priorityCount remoteCount : Nat)
    (tocHtml cardsHtml otherSection : List Nat) : List Nat :=
  pyStr "\n    <!DOCTYPE html>\n    <html>\n    <head>\n      <meta charset=\"utf-8\">\n      <meta name=\"viewport\" content=\"width=device-width, initial-scale=1.0\">\n    </head>\n    <body style=\"margin:0;padding:0;background:#f3f4f6;font-family:-apple-system,BlinkMacSystemFont,'Segoe UI',Roboto,sans-serif;\">\n      <div style=\"max-width:680px;margin:0 auto;padding:20px;\">\n\n        <!-- Header -->\n        <div style=\"background:linear-gradient(135deg,#1e293b,#334155);border-radius:12px;padding:24px;color:#ffffff;margin-bottom:16px;\">\n          <div style=\"font-size:10px;text-transform:uppercase;letter-spacing:2px;color:#94a3b8;\">Daily Job Digest</div>\n          <div style=\"font-size:22px;font-weight:700;margin-top:4px;\">"
    ++ today
    ++ pyStr "</div>\n          <div style=\"margin-top:12px;display:flex;gap:12px;flex-wrap:wrap;\">\n            <div style=\"background:rgba(255,255,255,0.1);border-radius:8px;padding:8px 14px;\">\n              <div style=\"font-size:20px;font-weight:700;\">"
    ++ natDigits jobCount
    ++ pyStr "</div>\n              <div style=\"font-size:11px;color:#94a3b8;\">New Listings</div>\n            </div>\n            <div style=\"background:rgba(255,255,255,0.1);border-radius:8px;padding:8px 14px;\">\n              <div style=\"font-size:20px;font-weight:700;color:#4ade80;\">"
    ++ natDigits highScore
    ++ pyStr "</div>\n              <div style=\"font-size:11px;color:#94a3b8;\">Strong Matches</div>\n            </div>\n            <div style=\"background:rgba(255,255,255,0.1);border-radius:8px;padding:8px 14px;\">\n              <div style=\"font-size:20px;font-weight:700;color:#60a5fa;\">"
    ++ natDigits priorityCount
    ++ pyStr "</div>\n              <div style=\"font-size:11px;color:#94a3b8;\">Priority Firms</div>\n            </div>\n            <div style=\"background:rgba(255,255,255,0.1);border-radius:8px;padding:8px 14px;\">\n              <div style=\"font-size:20px;font-weight:700;color:#c084fc;\">"
    ++ natDigits remoteCount
    ++ pyStr "</div>\n              <div style=\"font-size:11px;color:#94a3b8;\">Remote</div>\n            </div>\n          </div>\n        </div>\n\n        <!-- Quick Reference Table -->\n        "
    ++ tocHtml
    ++ pyStr "\n\n        <!-- Job Cards (Top Matches) -->\n        "
    ++ cardsHtml
    ++ pyStr "\n\n        <!-- Other Listings (Summary Table) -->\n        "
    ++ otherSection
    ++ pyStr "\n\n        <!-- Footer -->\n        <div style=\"text-align:center;padding:20px;font-size:11px;color:#9ca3af;\">\n          Searched: Partner, Senior Partner, VP, SVP, CIO, CDO, MD roles<br>\n          Location: Chicago, IL + Remote | Salary Floor: $250K+<br>\n          Industries: Manufacturing, Industrial, Technology, Consulting<br>\n          Priority: BCG, McKinsey, Bain, Accenture, Oliver Wyman, Slalom, IBM, EY, PwC, KPMG<br>\n          <br>\n          Click &#9660; Full Analysis on each card to expand insights<br>\n          Scored by Claude AI &middot; Delivered via Resend\n        </div>\n\n      </div>\n    </body>\n    </html>\n    "

/-- `build_email_html` (src/email_sender.py:363-489); `today` is the
formatted `datetime.now()` string, lifted to a parameter. -/
def build_email_html (today : List Nat) (jobs : List DJob) : Except (List Nat) (List Nat) := do
  let jobCount := jobs.length
  let highScore := (jobs.filter fun j => 7 ≤ dokey j).length
  let priorityCount := (jobs.filter fun j =>
    PRIORITIZE_COMPANIES.any fun p => containsSub (pyLower p) (pyLower (j.company.getD []))).length
  let remoteCount := (jobs.filter fun j =>
    containsSub (pyStr "remote") (pyLower (j.location.getD []))).length
  if jobs.isEmpty then
    let tocHtml : List Nat := []
    let cardsHtml := pyStr "\n        <div style=\"text-align:center;padding:40px;color:#9ca3af;\">\n          <div style=\"font-size:48px;\">&#128269;</div>\n          <div style=\"font-size:16px;margin-top:12px;\">No new matching jobs found today.</div>\n          <div style=\"font-size:13px;margin-top:4px;\">The agent searched for Partner, VP, CIO, and MD roles in Chicago + remote.</div>\n        </div>\n        "
    let otherSection : List Nat := []
    pure (emailShell today jobCount highScore priorityCount remoteCount tocHtml cardsHtml otherSection)
  else
    let tocHtml := buildTocTable jobs
    let topJobs := jobs.filter fun j => 7 ≤ dokey j
    let otherJobs := jobs.filter fun j => dokey j < 7
    let cardsHtml ←
      if !topJobs.isEmpty then do
        let cards ← mapExcept (fun e => buildJobCard e.2 (e.1 + 1) true) topJobs.enum
        pure
          (pyStr "\n            <div style=\"font-size:13px;font-weight:700;color:#374151;text-transform:uppercase;letter-spacing:1px;margin-bottom:10px;padding-bottom:6px;border-bottom:2px solid #22c55e;\">\n              Top Matches ("
            ++ natDigits topJobs.length ++ pyStr ")\n            </div>\n            "
            ++ List.intercalate (pyStr "\n") cards)
      else
        pure (pyStr "\n            <div style=\"text-align:center;padding:20px;color:#9ca3af;font-size:14px;\">\n              No strong matches (7+) today. See all listings below.\n            </div>\n            ")
    let otherSection ←
      if !otherJobs.isEmpty then do
        let rows ← mapExcept (fun e => buildSummaryRow e.2 (e.1 + topJobs.length + 1)) otherJobs.enum
        pure
          (pyStr "\n            <div style=\"margin-top:20px;\">\n              <div style=\"font-size:13px;font-weight:700;color:#374151;text-transform:uppercase;letter-spacing:1px;margin-bottom:10px;padding-bottom:6px;border-bottom:2px solid #f59e0b;\">\n                Other Listings ("
            ++ natDigits otherJobs.length
            ++ pyStr ")\n              </div>\n              <table style=\"width:100%;border-collapse:collapse;\">\n                <thead>\n                  <tr style=\"border-bottom:2px solid #e5e7eb;\">\n                    <th style=\"padding:6px;font-size:11px;color:#9ca3af;text-align:left;\">#</th>\n                    <th style=\"padding:6px;font-size:11px;color:#9ca3af;text-align:left;\">Score</th>\n                    <th style=\"padding:6px;font-size:11px;color:#9ca3af;text-align:left;\">Role</th>\n                    <th style=\"padding:6px;font-size:11px;color:#9ca3af;text-align:left;\">Company</th>\n                    <th style=\"padding:6px;font-size:11px;color:#9ca3af;text-align:left;\">Salary</th>\n                  </tr>\n                </thead>\n                <tbody>\n                  "
            ++ List.intercalate (pyStr "\n") rows
            ++ pyStr "\n                </tbody>\n              </table>\n            </div>\n            ")
      else
        pure []
    pure (emailShell today jobCount highScore priorityCount remoteCount tocHtml cardsHtml otherSection)

/-- The subject line built by `send_email` (src/email_sender.py:505-509);
`today` is the formatted date string.  It is passed to the send call only,
which the delivery oracle abstracts. -/
def emailSubject (today : List Nat) (jobs : List DJob) : List Nat :=
  let highScore := (jobs.filter fun j => 7 ≤ dokey j).length
  let base := pyStr "Job Digest (" ++ today ++ pyStr ") — " ++ natDigits jobs.length
    ++ pyStr " new listings"
  if highScore > 0 then base ++ pyStr ", " ++ natDigits highScore ++ pyStr " strong matches"
  else base

/-- `send_email` (src/email_sender.py:492-528).  `hasResendKey` is the
truthiness of `config.RESEND_API_KEY`; `sendO` the outcome of the
`resend.Emails.send` call (`ok` carries the returned id, `error` any raised
exception).  The result records the returned `bool` and the local file
write performed on the fallback path (path, content); an `Except.error`
escaping the function models an uncaught Python exception. -/
def send_email (hasResendKey : Bool) (sendO : Except Unit (List Nat)) (today : List Nat)
    (jobs : List DJob) : Except (List Nat) (Bool × Option (List Nat × List Nat)) :=
  if !hasResendKey then do
    let html ← build_email_html today jobs
    pure (false, some (pyStr "/tmp/job-digest-preview.html", html))
  else do
    let _subject := emailSubject today jobs
    let html ← build_email_html today jobs
    match sendO with
    | Except.ok _ => pure (true, none)
    | Except.error _ => pure (false, some (pyStr "/tmp/job-digest-preview.html", html))

/-!  Concrete fixtures used by the witness theorems. -/

/-- A fresh, non-excluded job with no source URL. -/
def jobA : Job :=
  { title := pyStr "VP Strategy", company := pyStr "Bain", location := pyStr "Remote" }

/-- A job at an excluded company. -/
def jobD : Job :=
  { title := pyStr "Director", company := pyStr "Deloitte", location := pyStr "Chicago" }

/-- A job that already carries a source URL. -/
def jobU : Job :=
  { title := pyStr "CIO", company := pyStr "Acme", location := pyStr "Chicago",
    url := pyStr "https://jobs.example/p/1", id := pyStr "id-u" }

/-- A presenter job with no keys at all. -/
def djobEmpty : DJob := {}

/-- A presenter job carrying `title` and `company`. -/
def djobTC : DJob :=
  { title := some (pyStr "VP Strategy"), company := some (pyStr "Bain") }

/-- A sample seen-store: one entry at the pruning boundary, one older. -/
def seenW : Store :=
  [(pyStr "k1", pyStr "2026-09-12"), (pyStr "k2", pyStr "2026-08-01")]

/-- An oracle answering every batch request with a JSON parse failure. -/
def batchOFail : List Job → BatchReply := fun _ => BatchReply.jsonError

/-- An oracle answering every single-job request with a failure. -/
def singleOFail : Job → SingleReply := fun _ => SingleReply.failed

/-!  Supporting lemmas. -/

theorem lowerCP_upperCP (n : Nat) : lowerCP (upperCP n) = lowerCP n := by
  unfold lowerCP upperCP
  split_ifs <;> omega

theorem pyLower_pyUpper (s : List Nat) : pyLower (pyUpper s) = pyLower s := by
  unfold pyLower pyUpper
  rw [List.map_map, show lowerCP ∘ upperCP = lowerCP from funext lowerCP_upperCP]

theorem pyLower_append (a b : List Nat) : pyLower (a ++ b) = pyLower a ++ pyLower b := by
  unfold pyLower
  exact List.map_append lowerCP a b

theorem lexLE_refl (s : List Nat) : lexLE s s = true := by
  induction s with
  | nil => rfl
  | cons a as ih => simp [lexLE, ih]

theorem dlookup_dinsert (k1 k v : List Nat) (s : Store) :
    dlookup k1 (dinsert k v s) = if k = k1 then some v else dlookup k1 s := by
  induction s with
  | nil => by_cases h : k = k1 <;> simp [dinsert, dlookup, h]
  | cons kv rest ih =>
    by_cases h1 : kv.1 = k
    · by_cases h2 : k = k1
      · simp [dinsert, dlookup, h1, h2]
      · have h3 : ¬ kv.1 = k1 := by rw [h1]; exact h2
        simp [dinsert, dlookup, h1, h2, h3]
    · by_cases h2 : kv.1 = k1
      · have h3 : ¬ k = k1 := fun he => h1 (by rw [h2, he])
        have h4 : ¬ k1 = k := fun he => h3 he.symm
        simp [dinsert, dlookup, h1, h2, h3, h4]
      · simp [dinsert, dlookup, h1, h2, ih]

theorem dedupFilter_store_mono (today k : List Nat) :
    ∀ (raw : List Job) (seen : Store), (dlookup k seen).isSome = true →
      (dlookup k (dedupFilter seen today raw).2).isSome = true
  | [], _, h => h
  | j :: rest, seen, h => by
    cases hb : (dlookup (jobId j) seen).isSome with
    | true =>
      simp only [dedupFilter, hb, if_true]
      exact dedupFilter_store_mono today k rest seen h
    | false =>
      cases hex : isExcluded j.company with
      | true =>
        simp [dedupFilter, hb, hex]
        exact dedupFilter_store_mono today k rest seen h
      | false =>
        simp [dedupFilter, hb, hex]
        apply dedupFilter_store_mono today k rest
        rw [dlookup_dinsert]
        by_cases hk : jobId j = k
        · simp [hk]
        · simp [hk, h]

theorem dedupFilter_mem_store (today : List Nat) (j : Job)
    (hex : isExcluded j.company = false) :
    ∀ (raw : List Job) (seen : Store), j ∈ raw →
      (dlookup (jobId j) (dedupFilter seen today raw).2).isSome = true
  | [], _, hj => absurd hj (List.not_mem_nil j)
  | k :: rest, seen, hj => by
    rcases List.mem_cons.mp hj with rfl | hmem
    · cases hb : (dlookup (jobId j) seen).isSome with
      | true =>
        simp [dedupFilter, hb]
        exact dedupFilter_store_mono today (jobId j) rest seen hb
      | false =>
        simp [dedupFilter, hb, hex]
        apply dedupFilter_store_mono today (jobId j) rest
        rw [dlookup_dinsert]
        simp
    · cases hb : (dlookup (jobId k) seen).isSome with
      | true =>
        simp [dedupFilter, hb]
        exact dedupFilter_mem_store today j hex rest seen hmem
      | false =>
        cases hex2 : isExcluded k.company with
        | true =>
          simp [dedupFilter, hb, hex2]
          exact dedupFilter_mem_store today j hex rest seen hmem
        | false =>
          simp [dedupFilter, hb, hex2]
          exact dedupFilter_mem_store today j hex rest _ hmem

theorem dedupFilter_all_skipped (today : List Nat) :
    ∀ (raw : List Job) (seen : Store),
      (∀ j ∈ raw, isExcluded j.company = true ∨ (dlookup (jobId j) seen).isSome = true) →
      (dedupFilter seen today raw).1 = []
  | [], _, _ => rfl
  | k :: rest, seen, hall => by
    cases hb : (dlookup (jobId k) seen).isSome with
    | true =>
      simp [dedupFilter, hb]
      exact dedupFilter_all_skipped today rest seen
        fun j hj => hall j (List.mem_cons_of_mem _ hj)
    | false =>
      have hex : isExcluded k.company = true := by
        rcases hall k (List.mem_cons_self k rest) with h | h
        · exact h
        · simp [hb] at h
      simp [dedupFilter, hb, hex]
      exact dedupFilter_all_skipped today rest seen
        fun j hj => hall j (List.mem_cons_of_mem _ hj)

theorem dedupFilter_mem_out (today : List Nat) :
    ∀ (raw : List Job) (seen : Store) (j2 : Job), j2 ∈ (dedupFilter seen today raw).1 →
      ∃ j, j ∈ raw ∧ isExcluded j.company = false ∧ j2 = finalizeJob j
  | [], _, j2, h => absurd h (List.not_mem_nil j2)
  | k :: rest, seen, j2, h => by
    cases hb : (dlookup (jobId k) seen).isSome with
    | true =>
      simp [dedupFilter, hb] at h
      obtain ⟨j, hj, hex, he⟩ := dedupFilter_mem_out today rest seen j2 h
      exact ⟨j, List.mem_cons_of_mem _ hj, hex, he⟩
    | false =>
      cases hex2 : isExcluded k.company with
      | true =>
        simp [dedupFilter, hb, hex2] at h
        obtain ⟨j, hj, hex, he⟩ := dedupFilter_mem_out today rest seen j2 h
        exact ⟨j, List.mem_cons_of_mem _ hj, hex, he⟩
      | false =>
        simp [dedupFilter, hb, hex2] at h
        rcases h with rfl | h
        · exact ⟨k, List.mem_cons_self k rest, hex2, rfl⟩
        · obtain ⟨j, hj, hex, he⟩ := dedupFilter_mem_out today rest _ j2 h
          exact ⟨j, List.mem_cons_of_mem _ hj, hex, he⟩

theorem googleSearchUrl_ne_nil (t c : List Nat) : googleSearchUrl t c ≠ [] := by
  unfold googleSearchUrl
  intro h
  exact absurd (List.append_eq_nil.mp h).1 (by decide)

theorem finalizeJob_company (j : Job) : (finalizeJob j).company = j.company := by
  unfold finalizeJob
  dsimp only
  split <;> rfl

theorem finalizeJob_url (j : Job) :
    (j.url = [] → (finalizeJob j).urlIsSearch = true
      ∧ (finalizeJob j).url = googleSearchUrl j.title j.company)
    ∧ (j.url ≠ [] → (finalizeJob j).urlIsSearch = false ∧ (finalizeJob j).url = j.url) := by
  unfold finalizeJob
  dsimp only
  refine ⟨fun h => ?_, fun h => ?_⟩ <;> simp [h]

theorem dedupFilter_store_values (today : List Nat) :
    ∀ (raw : List Job) (seen : Store) (k v : List Nat),
      dlookup k (dedupFilter seen today raw).2 = some v →
      dlookup k seen = some v ∨ v = today
  | [], _, _, _, h => Or.inl h
  | j :: rest, seen, k, v, h => by
    cases hb : (dlookup (jobId j) seen).isSome with
    | true =>
      simp [dedupFilter, hb] at h
      exact dedupFilter_store_values today rest seen k v h
    | false =>
      cases hex : isExcluded j.company with
      | true =>
        simp [dedupFilter, hb, hex] at h
        exact dedupFilter_store_values today rest seen k v h
      | false =>
        simp [dedupFilter, hb, hex] at h
        rcases dedupFilter_store_values today rest _ k v h with h2 | h2
        · rw [dlookup_dinsert] at h2
          by_cases hk : jobId j = k
          · rw [if_pos hk] at h2
            exact Or.inr (Option.some.inj h2).symm
          · rw [if_neg hk] at h2
            exact Or.inl h2
        · exact Or.inr h2

theorem dlookup_mem : ∀ (s : Store) (k v : List Nat), dlookup k s = some v → (k, v) ∈ s
  | [], _, _, h => by simp [dlookup] at h
  | kv :: rest, k, v, h => by
    by_cases hk : kv.1 = k
    · simp only [dlookup, if_pos hk] at h
      have he : kv = (k, v) := Prod.ext hk (Option.some.inj h)
      rw [← he]
      exact List.mem_cons_self kv rest
    · simp only [dlookup, if_neg hk] at h
      exact List.mem_cons_of_mem _ (dlookup_mem rest k v h)

theorem dlookup_pruneSeen (cutoff k v : List Nat) :
    ∀ (s : Store), dlookup k s = some v → lexLE cutoff v = true →
      (dlookup k (pruneSeen s cutoff)).isSome = true
  | [], h, _ => by simp [dlookup] at h
  | kv :: rest, h, hle => by
    unfold pruneSeen
    rw [List.filter_cons]
    by_cases hk : kv.1 = k
    · simp only [dlookup, if_pos hk] at h
      have hv : kv.2 = v := Option.some.inj h
      rw [if_pos (show lexLE cutoff kv.2 = true from hv ▸ hle)]
      simp only [dlookup, if_pos hk]
      rfl
    · simp only [dlookup, if_neg hk] at h
      by_cases hp : lexLE cutoff kv.2 = true
      · rw [if_pos hp]
        simp only [dlookup, if_neg hk]
        exact dlookup_pruneSeen cutoff k v rest h hle
      · rw [if_neg hp]
        exact dlookup_pruneSeen cutoff k v rest h hle

/-- C1: (a) running the fetch-side deduplication loop a second time on the
same raw job list, starting from the seen-store state the first pass
produced, appends nothing to its output — every non-excluded job's
fingerprint is in the store after the first pass, and excluded jobs are
skipped again by the exclusion check; (b) the same holds across the whole
filter stage including pruning, given what the code guarantees about its
own store: the cutoff (run date − 30 days) is at most the run date, and
every pre-existing entry is dated at or after the cutoff. -/
theorem dedupFilter_idempotent (seen : Store) (today cutoff : List Nat) (raw : List Job) :
    (dedupFilter (dedupFilter seen today raw).2 today raw).1 = []
    ∧ (lexLE cutoff today = true →
        (∀ kv ∈ seen, lexLE cutoff kv.2 = true) →
        (dedupFilter (filterStage seen today cutoff raw).2 today raw).1 = []) := by
  constructor
  · apply dedupFilter_all_skipped
    intro j hj
    cases hex : isExcluded j.company with
    | true => exact Or.inl rfl
    | false => exact Or.inr (dedupFilter_mem_store today j hex raw seen hj)
  · intro hct hall
    apply dedupFilter_all_skipped
    intro j hj
    cases hex : isExcluded j.company with
    | true => exact Or.inl rfl
    | false =>
      refine Or.inr ?_
      obtain ⟨v, hv⟩ := Option.isSome_iff_exists.mp
        (dedupFilter_mem_store today j hex raw seen hj)
      have h2 : lexLE cutoff v = true := by
        rcases dedupFilter_store_values today raw seen (jobId j) v hv with h3 | h3
        · exact hall (jobId j, v) (dlookup_mem seen (jobId j) v h3)
        · rw [h3]
          exact hct
      unfold filterStage
      exact dlookup_pruneSeen cutoff (jobId j) v _ hv h2

/-- Witness for C1(b) on a concrete in-window store. -/
theorem dedupFilter_idempotent_witness :
    (dedupFilter (filterStage [(pyStr "k1", pyStr "2026-09-20")] (pyStr "2026-10-12")
        (pyStr "2026-09-12") [jobA]).2 (pyStr "2026-10-12") [jobA]).1 = [] :=
  (dedupFilter_idempotent [(pyStr "k1", pyStr "2026-09-20")] (pyStr "2026-10-12")
    (pyStr "2026-09-12") [jobA]).2 (by decide) (by decide)

/-- C2: every job in the filter-stage output has a non-empty primary URL
and is the finalization of some raw input job; a job with no source URL
gets `url_is_search = true` and a URL computed purely from its
(title, company); a job with a source URL keeps it unchanged, with
`url_is_search = false`. -/
theorem url_guarantee (seen : Store) (today : List Nat) (raw : List Job) :
    (∀ j2 ∈ (dedupFilter seen today raw).1,
      j2.url ≠ [] ∧ ∃ j ∈ raw, j2 = finalizeJob j)
    ∧ ∀ j : Job,
        (j.url = [] → (finalizeJob j).urlIsSearch = true
          ∧ (finalizeJob j).url = googleSearchUrl j.title j.company)
        ∧ (j.url ≠ [] → (finalizeJob j).urlIsSearch = false
          ∧ (finalizeJob j).url = j.url) := by
  constructor
  · intro j2 h2
    obtain ⟨j, hj, hex, he⟩ := dedupFilter_mem_out today raw seen j2 h2
    subst he
    refine ⟨?_, ⟨j, hj, rfl⟩⟩
    by_cases hu : j.url = []
    · rw [((finalizeJob_url j).1 hu).2]
      exact googleSearchUrl_ne_nil _ _
    · rw [((finalizeJob_url j).2 hu).2]
      exact hu
  · exact finalizeJob_url

/-- Witness for C2: `jobA` (no source URL) gets the synthesized search
link with the flag set; `jobU` (source URL present) keeps its URL. -/
theorem url_guarantee_witness :
    ((finalizeJob jobA).urlIsSearch = true
      ∧ (finalizeJob jobA).url = googleSearchUrl jobA.title jobA.company)
    ∧ (finalizeJob jobU).urlIsSearch = false ∧ (finalizeJob jobU).url = jobU.url :=
  ⟨((url_guarantee [] (pyStr "2026-10-12") [jobA]).2 jobA).1 rfl,
   ((url_guarantee [] (pyStr "2026-10-12") [jobU]).2 jobU).2 (by decide)⟩

/-- C3: no job in the filter-stage output has a company matching the
exclusion list; finalization preserves the company string; hence an
excluded raw job never appears in the output, whether or not its
fingerprint was already in the seen-store. -/
theorem exclusion_law (seen : Store) (today : List Nat) (raw : List Job) :
    (∀ j2 ∈ (dedupFilter seen today raw).1, isExcluded j2.company = false)
    ∧ (∀ j : Job, (finalizeJob j).company = j.company)
    ∧ ∀ j ∈ raw, isExcluded j.company = true →
        finalizeJob j ∉ (dedupFilter seen today raw).1 := by
  refine ⟨?_, finalizeJob_company, ?_⟩
  · intro j2 h2
    obtain ⟨j, hj, hex, he⟩ := dedupFilter_mem_out today raw seen j2 h2
    subst he
    rw [finalizeJob_company]
    exact hex
  · intro j hj hex hmem
    obtain ⟨j3, hj3, hex3, he3⟩ := dedupFilter_mem_out today raw seen _ hmem
    have hc := congrArg Job.company he3
    rw [finalizeJob_company, finalizeJob_company] at hc
    rw [hc, hex3] at hex
    cases hex

/-- Witness for C3: the job at the excluded company "Deloitte" is absent
from the output even on a fresh seen-store. -/
theorem exclusion_law_witness :
    finalizeJob jobD ∉ (dedupFilter [] (pyStr "2026-10-12") [jobD]).1 :=
  (exclusion_law [] (pyStr "2026-10-12") [jobD]).2.2 jobD (List.mem_cons_self jobD [])
    (by decide)

/-- C4: after pruning, every retained seen-store entry has `cutoff ≤ date`
(`cutoff` is the ISO date 30 days before the run date, line 297 of
src/search.py) and was already present; an entry dated exactly at the
cutoff is retained (the boundary is inclusive), and every present entry
with `cutoff ≤ date` is retained. -/
theorem pruning_law (seen : Store) (cutoff : List Nat) :
    (∀ kv ∈ pruneSeen seen cutoff, lexLE cutoff kv.2 = true ∧ kv ∈ seen)
    ∧ (∀ kv ∈ seen, kv.2 = cutoff → kv ∈ pruneSeen seen cutoff)
    ∧ ∀ kv ∈ seen, lexLE cutoff kv.2 = true → kv ∈ pruneSeen seen cutoff := by
  refine ⟨fun kv h => ?_, fun kv h he => ?_, fun kv h hle => ?_⟩
  · have h2 := List.mem_filter.mp h
    exact ⟨h2.2, h2.1⟩
  · refine List.mem_filter.mpr ⟨h, ?_⟩
    rw [he]
    exact lexLE_refl cutoff
  · exact List.mem_filter.mpr ⟨h, hle⟩

/-- Witness for C4: on `seenW` with cutoff 2026-09-12, the entry dated
exactly at the cutoff is retained, while 2026-08-01 is before the
cutoff. -/
theorem pruning_law_witness :
    (pyStr "k1", pyStr "2026-09-12") ∈ pruneSeen seenW (pyStr "2026-09-12")
      ∧ lexLE (pyStr "2026-09-12") (pyStr "2026-08-01") = false :=
  ⟨(pruning_law seenW (pyStr "2026-09-12")).2.1 (pyStr "k1", pyStr "2026-09-12")
      (by decide) rfl,
   by decide⟩

/-- C5: the fingerprint is a pure, deterministic function of
(title, company, location): upper-casing the title (the strings of the
source are ASCII) does not change it, and equal inputs give equal
outputs. -/
theorem jobId_deterministic_case_insensitive (t c l t2 c2 l2 : List Nat)
    (ht : t = t2) (hc : c = c2) (hl : l = l2) :
    jobIdOf (pyUpper t) c l = jobIdOf t c l ∧ jobIdOf t c l = jobIdOf t2 c2 l2 := by
  subst ht
  subst hc
  subst hl
  refine ⟨?_, rfl⟩
  unfold jobIdOf
  have h : pyLower (pyUpper t ++ pyStr "-" ++ c ++ pyStr "-" ++ l)
      = pyLower (t ++ pyStr "-" ++ c ++ pyStr "-" ++ l) := by
    simp only [pyLower_append, pyLower_pyUpper]
  rw [h]

/-- Witness for C5 at a concrete triple. -/
theorem jobId_deterministic_case_insensitive_witness :
    jobIdOf (pyUpper (pyStr "Vp Strategy")) (pyStr "Bain") (pyStr "Remote")
        = jobIdOf (pyStr "Vp Strategy") (pyStr "Bain") (pyStr "Remote")
      ∧ jobIdOf (pyStr "Vp Strategy") (pyStr "Bain") (pyStr "Remote")
        = jobIdOf (pyStr "Vp Strategy") (pyStr "Bain") (pyStr "Remote") :=
  jobId_deterministic_case_insensitive _ _ _ _ _ _ rfl rfl rfl

/-- C10: the fingerprint hashes the single `-`-joined string with no
escaping of the separator, so the distinct triples ("a-b", "c", "x") and
("a", "b-c", "x") collide. -/
theorem jobId_collision :
    jobIdOf (pyStr "a-b") (pyStr "c") (pyStr "x")
        = jobIdOf (pyStr "a") (pyStr "b-c") (pyStr "x")
      ∧ (pyStr "a-b", pyStr "c", pyStr "x") ≠ (pyStr "a", pyStr "b-c", pyStr "x") := by
  constructor
  · unfold jobIdOf
    have h : pyLower (pyStr "a-b" ++ pyStr "-" ++ pyStr "c" ++ pyStr "-" ++ pyStr "x")
        = pyLower (pyStr "a" ++ pyStr "-" ++ pyStr "b-c" ++ pyStr "-" ++ pyStr "x") := by
      decide
    rw [h]
  · decide

theorem chunksAux_flatten (n : Nat) (hn : 0 < n) :
    ∀ (fuel : Nat) (l : List α), (chunksAux n fuel l).flatten = l
  | fuel, [] => by cases fuel <;> rfl
  | 0, a :: as => by simp [chunksAux]
  | fuel + 1, a :: as => by
    rw [show chunksAux n (fuel + 1) (a :: as)
        = (a :: as).take n :: chunksAux n fuel (as.drop (n - 1)) from rfl]
    rw [List.flatten_cons]
    rw [chunksAux_flatten n hn fuel (as.drop (n - 1))]
    cases n with
    | zero => omega
    | succ m =>
      rw [List.take_succ_cons]
      simp only [Nat.succ_sub_one]
      rw [List.cons_append, List.take_append_drop]

theorem chunksList_flatten (n : Nat) (hn : 0 < n) (l : List α) :
    (chunksList n l).flatten = l :=
  chunksAux_flatten n hn l.length l

theorem scoreSingle_clear (sO : Job → SingleReply) (j : Job) :
    clearScores (scoreSingle sO j) = clearScores j := by
  unfold scoreSingle
  cases sO j with
  | failed => rfl
  | parsed l => cases l <;> rfl

theorem scoreBatch_clear (bO : List Job → BatchReply) (sO : Job → SingleReply)
    (batch : List Job) :
    (scoreBatch bO sO batch).map clearScores = batch.map clearScores := by
  unfold scoreBatch
  cases bO batch with
  | parsed entries =>
    rw [List.map_map]
    exact List.map_congr_left fun j _ => by
      simp only [Function.comp_apply]
      cases dictGet entries j.id <;> rfl
  | jsonError =>
    by_cases h : batch.length > 1
    · rw [if_pos h, List.map_map]
      exact List.map_congr_left fun j _ => scoreSingle_clear sO j
    · rw [if_neg h, List.map_map]
      exact List.map_congr_left fun j _ => rfl
  | exn =>
    rw [List.map_map]
    exact List.map_congr_left fun j _ => rfl

theorem scoreAll_clear (bO : List Job → BatchReply) (sO : Job → SingleReply)
    (jobs : List Job) :
    (scoreAll bO sO jobs).map clearScores = jobs.map clearScores := by
  unfold scoreAll
  have h1 : ∀ cs : List (List Job),
      (cs.flatMap (scoreBatch bO sO)).map clearScores = cs.flatten.map clearScores := by
    intro cs
    induction cs with
    | nil => rfl
    | cons b bs ih =>
      simp only [List.flatMap_cons, List.flatten_cons, List.map_append, ih, scoreBatch_clear]
  rw [h1, chunksList_flatten 5 (by omega) jobs]

theorem scoreSingle_scores (sO : Job → SingleReply) (j : Job) :
    ∃ s, (scoreSingle sO j).scores = some s
      ∧ (documentedMarker s
        ∨ ∃ j0 sc rest, sO j0 = SingleReply.parsed (sc :: rest) ∧ sc = s) := by
  unfold scoreSingle
  cases hS : sO j with
  | failed =>
    refine ⟨_, rfl, Or.inl ?_⟩
    exact Or.inr (Or.inr (Or.inr (Or.inr (Or.inr rfl))))
  | parsed l =>
    cases l with
    | nil =>
      refine ⟨_, rfl, Or.inl ?_⟩
      exact Or.inr (Or.inr (Or.inr (Or.inr (Or.inl rfl))))
    | cons sc rest => exact ⟨sc, rfl, Or.inr ⟨j, sc, rest, hS, rfl⟩⟩

theorem scoreBatch_scores (bO : List Job → BatchReply) (sO : Job → SingleReply)
    (batch : List Job) :
    ∀ j2 ∈ scoreBatch bO sO batch, ∃ s, j2.scores = some s
      ∧ (documentedMarker s ∨ fromService bO sO s) := by
  intro j2 hj2
  unfold scoreBatch at hj2
  cases hB : bO batch with
  | parsed entries =>
    simp only [hB] at hj2
    obtain ⟨j, hj, he⟩ := List.mem_map.mp hj2
    cases hd : dictGet entries j.id with
    | some sc =>
      simp only [hd] at he
      subst he
      refine ⟨sc, rfl, Or.inr (Or.inl ?_)⟩
      unfold dictGet at hd
      obtain ⟨e, hfind, he2⟩ := Option.map_eq_some'.mp hd
      exact ⟨batch, entries, e, hB, List.mem_reverse.mp (List.mem_of_find?_eq_some hfind), he2⟩
    | none =>
      simp only [hd] at he
      subst he
      exact ⟨_, rfl, Or.inl (Or.inr (Or.inl rfl))⟩
  | jsonError =>
    simp only [hB] at hj2
    by_cases hl : batch.length > 1
    · rw [if_pos hl] at hj2
      obtain ⟨j, hj, he⟩ := List.mem_map.mp hj2
      subst he
      obtain ⟨s, hs, hor⟩ := scoreSingle_scores sO j
      exact ⟨s, hs, hor.imp id Or.inr⟩
    · rw [if_neg hl] at hj2
      obtain ⟨j, hj, he⟩ := List.mem_map.mp hj2
      subst he
      exact ⟨_, rfl, Or.inl (Or.inr (Or.inr (Or.inl rfl)))⟩
  | exn =>
    simp only [hB] at hj2
    obtain ⟨j, hj, he⟩ := List.mem_map.mp hj2
    subst he
    exact ⟨_, rfl, Or.inl (Or.inr (Or.inr (Or.inr (Or.inl rfl))))⟩

/-- C6: the scorer drops no job and attaches a score block to every job:
its output is a permutation of the input up to the `scores` field, and
every output job carries either a documented default/error-marker block or
a block parsed out of a service response, on every execution path. -/
theorem scorer_completeness (hasKey : Bool) (bO : List Job → BatchReply)
    (sO : Job → SingleReply) (jobs : List Job) :
    ((rank_jobs hasKey bO sO jobs).map clearScores).Perm (jobs.map clearScores)
    ∧ ∀ j2 ∈ rank_jobs hasKey bO sO jobs,
        ∃ s, j2.scores = some s ∧ (documentedMarker s ∨ fromService bO sO s) := by
  unfold rank_jobs
  cases he : jobs.isEmpty with
  | true =>
    have hnil : jobs = [] := List.isEmpty_iff.mp he
    subst hnil
    simp
  | false =>
    rw [if_neg (by decide)]
    cases hk : hasKey with
    | false =>
      rw [if_pos (by decide)]
      constructor
      · have h1 : (jobs.map addUnranked).map clearScores = jobs.map clearScores := by
          rw [List.map_map]
          exact List.map_congr_left fun j _ => rfl
        rw [h1]
      · intro j2 hj2
        obtain ⟨j, hj, he2⟩ := List.mem_map.mp hj2
        subst he2
        exact ⟨unrankedScores, rfl, Or.inl (Or.inl rfl)⟩
    | true =>
      rw [if_neg (by decide)]
      constructor
      · have h1 := (List.mergeSort_perm (scoreAll bO sO jobs)
          (fun a b => okey b ≤ okey a)).map clearScores
        rw [scoreAll_clear] at h1
        exact h1
      · intro j2 hj2
        have hmem : j2 ∈ scoreAll bO sO jobs := by
          unfold sortByOverall at hj2
          exact List.mem_mergeSort.mp hj2
        unfold scoreAll at hmem
        obtain ⟨b, hb, hjb⟩ := List.mem_flatMap.mp hmem
        exact scoreBatch_scores bO sO b j2 hjb

/-- Witness for C6: a one-job list under a parse-failing oracle comes back
with the "Parse error during scoring" marker attached. -/
theorem scorer_completeness_witness :
    ∃ s, ({ jobU with
        scores := some (emptyScores (pyStr "Parse error during scoring")) } : Job).scores
          = some s
      ∧ (documentedMarker s ∨ fromService batchOFail singleOFail s) :=
  (scorer_completeness true batchOFail singleOFail [jobU]).2
    { jobU with scores := some (emptyScores (pyStr "Parse error during scoring")) }
    (by
      have h1 : rank_jobs true batchOFail singleOFail [jobU]
          = [{ jobU with scores := some (emptyScores (pyStr "Parse error during scoring")) }] := by
        unfold rank_jobs
        rw [if_neg (by decide), if_neg (by decide)]
        unfold sortByOverall
        rw [show scoreAll batchOFail singleOFail [jobU]
            = [{ jobU with scores := some (emptyScores (pyStr "Parse error during scoring")) }] from rfl]
        exact List.mergeSort_singleton _
      rw [h1]
      exact List.mem_cons_self _ _)

theorem okeyLE_trans : ∀ (a b c : Job), (decide (okey b ≤ okey a)) = true →
    (decide (okey c ≤ okey b)) = true → (decide (okey c ≤ okey a)) = true :=
  fun _ _ _ hab hbc =>
    decide_eq_true (le_trans (of_decide_eq_true hbc) (of_decide_eq_true hab))

theorem okeyLE_total : ∀ (a b : Job),
    ((decide (okey b ≤ okey a)) || (decide (okey a ≤ okey b))) = true := by
  intro a b
  simp only [Bool.or_eq_true, decide_eq_true_eq]
  exact le_total (okey b) (okey a)

theorem mergeSort_okey_filter (l : List Job) (v : Rat) :
    (List.mergeSort l (fun a b => okey b ≤ okey a)).filter (fun j => okey j == v)
      = l.filter (fun j => okey j == v) := by
  have hpair : List.Pairwise (fun a b : Job => decide (okey b ≤ okey a) = true)
      (l.filter fun j => okey j == v) := by
    apply List.pairwise_of_forall_mem_list
    intro a ha b hb
    have ha2 : okey a = v := eq_of_beq (List.mem_filter.mp ha).2
    have hb2 : okey b = v := eq_of_beq (List.mem_filter.mp hb).2
    rw [decide_eq_true_eq, ha2, hb2]
  have hsub := List.sublist_mergeSort okeyLE_trans okeyLE_total hpair (List.filter_sublist l)
  have hsub2 := List.Sublist.filter (fun j => okey j == v) hsub
  rw [List.filter_eq_self.mpr (fun a ha => (List.mem_filter.mp ha).2)] at hsub2
  have hperm := (List.mergeSort_perm l (fun a b => okey b ≤ okey a)).filter
    (fun j => okey j == v)
  exact (hsub2.eq_of_length hperm.length_eq.symm).symm

/-- C7: the scorer output is sorted non-increasingly by overall score (a
missing block or overall counting as 0), and is stable: for every score
value, the output jobs at that value are exactly the annotated input jobs at
that value in input order (the annotation phase itself preserves input
order, third conjunct). -/
theorem scorer_sort_law (hasKey : Bool) (bO : List Job → BatchReply)
    (sO : Job → SingleReply) (jobs : List Job) :
    List.Pairwise (fun a b : Job => okey b ≤ okey a) (rank_jobs hasKey bO sO jobs)
    ∧ (∀ v : Rat,
        (rank_jobs hasKey bO sO jobs).filter (fun j => okey j == v)
          = (rankedUnsorted hasKey bO sO jobs).filter (fun j => okey j == v))
    ∧ (rankedUnsorted hasKey bO sO jobs).map clearScores = jobs.map clearScores := by
  unfold rank_jobs rankedUnsorted sortByOverall
  cases he : jobs.isEmpty with
  | true =>
    have hnil : jobs = [] := List.isEmpty_iff.mp he
    subst hnil
    simp
  | false =>
    have hne : ¬(false = true) := by decide
    rw [if_neg hne, if_neg hne]
    cases hk : hasKey with
    | false =>
      have hpt : (!false) = true := by decide
      rw [if_pos hpt, if_pos hpt]
      refine ⟨?_, fun v => rfl, ?_⟩
      · rw [List.pairwise_map]
        exact List.pairwise_of_forall fun a b => le_refl 5
      · rw [List.map_map]
        exact List.map_congr_left fun j _ => rfl
    | true =>
      have hnt : ¬((!true) = true) := by decide
      rw [if_neg hnt, if_neg hnt]
      refine ⟨?_, fun v => mergeSort_okey_filter (scoreAll bO sO jobs) v,
        scoreAll_clear bO sO jobs⟩
      have hs := List.sorted_mergeSort okeyLE_trans okeyLE_total (scoreAll bO sO jobs)
      exact hs.imp fun h => of_decide_eq_true h

/-- Witness for C7 at a concrete input (no-credential path, two jobs). -/
theorem scorer_sort_law_witness :
    List.Pairwise (fun a b : Job => okey b ≤ okey a)
      (rank_jobs false batchOFail singleOFail [jobU, jobA]) :=
  (scorer_sort_law false batchOFail singleOFail [jobU, jobA]).1

theorem snd_mem_of_mem_enumFrom :
    ∀ (l : List α) (n : Nat) (e : Nat × α), e ∈ l.enumFrom n → e.2 ∈ l
  | [], _, _, h => absurd h (List.not_mem_nil _)
  | a :: as, n, e, h => by
    rcases List.mem_cons.mp h with rfl | h2
    · exact List.mem_cons_self a as
    · exact List.mem_cons_of_mem _ (snd_mem_of_mem_enumFrom as (n + 1) e h2)

theorem snd_mem_of_mem_enum {l : List α} {e : Nat × α} (h : e ∈ l.enum) : e.2 ∈ l :=
  snd_mem_of_mem_enumFrom l 0 e h

theorem mapExcept_ok {f : α → Except ε β} :
    ∀ (l : List α), (∀ a ∈ l, ∃ b, f a = Except.ok b) →
      ∃ bs, mapExcept f l = Except.ok bs
  | [], _ => ⟨[], rfl⟩
  | a :: as, h => by
    obtain ⟨b, hb⟩ := h a (List.mem_cons_self a as)
    obtain ⟨bs, hbs⟩ := mapExcept_ok as fun x hx => h x (List.mem_cons_of_mem _ hx)
    refine ⟨b :: bs, ?_⟩
    unfold mapExcept
    rw [hb, hbs]

theorem buildJobCard_ok (job : DJob) (rank : Nat) (expanded : Bool)
    (ht : job.title.isSome = true) (hc : job.company.isSome = true) :
    ∃ html, buildJobCard job rank expanded = Except.ok html := by
  obtain ⟨t, ht2⟩ := Option.isSome_iff_exists.mp ht
  obtain ⟨c, hc2⟩ := Option.isSome_iff_exists.mp hc
  unfold buildJobCard
  rw [ht2, hc2]
  exact ⟨_, rfl⟩

theorem buildSummaryRow_ok (job : DJob) (rank : Nat)
    (ht : job.title.isSome = true) (hc : job.company.isSome = true) :
    ∃ html, buildSummaryRow job rank = Except.ok html := by
  obtain ⟨t, ht2⟩ := Option.isSome_iff_exists.mp ht
  obtain ⟨c, hc2⟩ := Option.isSome_iff_exists.mp hc
  unfold buildSummaryRow
  rw [ht2, hc2]
  exact ⟨_, rfl⟩

theorem build_email_html_ok (today : List Nat) (jobs : List DJob)
    (h : ∀ j ∈ jobs, j.title.isSome = true ∧ j.company.isSome = true) :
    ∃ html, build_email_html today jobs = Except.ok html := by
  unfold build_email_html
  cases hje : jobs.isEmpty with
  | true => exact ⟨_, rfl⟩
  | false =>
    have hne : ¬(false = true) := by decide
    rw [if_neg hne]
    obtain ⟨cards, hcards⟩ : ∃ out,
        mapExcept (fun e => buildJobCard e.2 (e.1 + 1) true)
          (jobs.filter fun j => 7 ≤ dokey j).enum = Except.ok out := by
      apply mapExcept_ok
      intro e he2
      have hj := (List.mem_filter.mp (snd_mem_of_mem_enum he2)).1
      exact buildJobCard_ok e.2 (e.1 + 1) true (h e.2 hj).1 (h e.2 hj).2
    obtain ⟨rows, hrows⟩ : ∃ out,
        mapExcept (fun e =>
            buildSummaryRow e.2 (e.1 + (jobs.filter fun j => 7 ≤ dokey j).length + 1))
          (jobs.filter fun j => dokey j < 7).enum = Except.ok out := by
      apply mapExcept_ok
      intro e he2
      have hj := (List.mem_filter.mp (snd_mem_of_mem_enum he2)).1
      exact buildSummaryRow_ok e.2 _ (h e.2 hj).1 (h e.2 hj).2
    cases hTop : (jobs.filter fun j => 7 ≤ dokey j).isEmpty with
    | true =>
      cases hOther : (jobs.filter fun j => dokey j < 7).isEmpty with
      | true => simp only [hTop, hOther]; exact ⟨_, rfl⟩
      | false => simp only [hTop, hOther]; rw [hrows]; exact ⟨_, rfl⟩
    | false =>
      cases hOther : (jobs.filter fun j => dokey j < 7).isEmpty with
      | true => simp only [hTop, hOther]; rw [hcards]; exact ⟨_, rfl⟩
      | false => simp only [hTop, hOther]; rw [hcards, hrows]; exact ⟨_, rfl⟩

/-- Counterexample to C8 as stated: on a job dictionary with no keys the
presenter raises (`job["title"]` in the summary-row builder is a direct
key access), instead of returning an HTML string. -/
theorem presenter_missing_title_raises :
    (build_email_html (pyStr "Sunday, October 12, 2026") [djobEmpty]).isOk = false := by
  decide

/-- C8 (amended): the presenter is total on every job sequence whose jobs
carry `title` and `company` entries — all other fields degrade to
placeholders/defaults — and a missing score block is treated as overall 0
by the threshold logic. -/
theorem presenter_total_amended (today : List Nat) (jobs : List DJob)
    (h : ∀ j ∈ jobs, j.title.isSome = true ∧ j.company.isSome = true) :
    (build_email_html today jobs).isOk = true
      ∧ ∀ j : DJob, j.scores = none → dokey j = 0 := by
  obtain ⟨html, hh⟩ := build_email_html_ok today jobs h
  refine ⟨by rw [hh]; rfl, fun j hj => ?_⟩
  unfold dokey
  rw [hj]
  rfl

/-- Witness for amended C8. -/
theorem presenter_total_amended_witness :
    (build_email_html (pyStr "Sunday, October 12, 2026") [djobTC]).isOk = true
      ∧ ∀ j : DJob, j.scores = none → dokey j = 0 :=
  presenter_total_amended (pyStr "Sunday, October 12, 2026") [djobTC] (by decide)

/-- Counterexample to C9 as stated: with the credential missing, on a job
dictionary with no keys `send_email` raises out of the stage (the
`KeyError` from rendering happens outside its `try` block) instead of
writing the file and returning `False`. -/
theorem delivery_missing_title_raises :
    (send_email false (Except.error ()) (pyStr "Sunday, October 12, 2026") [djobEmpty]).isOk
      = false := by
  decide

/-- C9 (amended): on every input whose jobs render (title and company
present), `send_email` never raises: when the credential is missing or the
send call raises, it writes the rendered HTML to the fixed local path and
returns `False`; it returns `True` exactly when the send succeeds. -/
theorem delivery_contract_amended (hasResendKey : Bool) (sendO : Except Unit (List Nat))
    (today : List Nat) (jobs : List DJob)
    (h : ∀ j ∈ jobs, j.title.isSome = true ∧ j.company.isSome = true) :
    ∃ html, build_email_html today jobs = Except.ok html
      ∧ (hasResendKey = false →
          send_email hasResendKey sendO today jobs
            = Except.ok (false, some (pyStr "/tmp/job-digest-preview.html", html)))
      ∧ (hasResendKey = true → sendO = Except.error () →
          send_email hasResendKey sendO today jobs
            = Except.ok (false, some (pyStr "/tmp/job-digest-preview.html", html)))
      ∧ (hasResendKey = true → ∀ r, sendO = Except.ok r →
          send_email hasResendKey sendO today jobs = Except.ok (true, none)) := by
  obtain ⟨html, hh⟩ := build_email_html_ok today jobs h
  refine ⟨html, hh, fun hk => ?_, fun hk hs => ?_, fun hk r hs => ?_⟩
  · subst hk
    unfold send_email
    rw [if_pos (by decide : (!false) = true), hh]
    rfl
  · subst hk
    subst hs
    unfold send_email
    rw [if_neg (by decide : ¬((!true) = true)), hh]
    rfl
  · subst hk
    subst hs
    unfold send_email
    rw [if_neg (by decide : ¬((!true) = true)), hh]
    rfl

/-- Witness for amended C9: missing credential on a renderable job list
gives the local-file fallback and `False`. -/
theorem delivery_contract_amended_witness :
    ∃ html, send_email false (Except.error ()) (pyStr "Oct 12") [djobTC]
      = Except.ok (false, some (pyStr "/tmp/job-digest-preview.html", html)) := by
  obtain ⟨html, _, h2, _, _⟩ :=
    delivery_contract_amended false (Except.error ()) (pyStr "Oct 12") [djobTC] (by decide)
  exact ⟨html, h2 rfl⟩
